import Mathlib

/-!
Verification of the assessment session state machine of the BACKEND
repository (FastAPI healthcare chatbot).  The definitions below are a
shallow embedding of the Python source:

* `app/main.py`            — S1 handlers (`/assessment/start`, `/assessment/answer`,
                             `/assessment/end`, legacy `POST /chat`), `detect_symptom`,
                             `build_question_response`, `cleanup_session`;
* `app/web/web_routes.py`  — S2 handlers (`/web/assessment/...`), `_detect_symptom`,
                             `_build_question_response`;
* `app/auth/assessment_db.py` — `create_session` (DB layer).

Python dictionaries are embedded as association lists with Python `dict.get`
semantics (a default value applies only when the key is absent); Python
`None` inside a stored value is `Option.none`; a Python statement that can
raise is embedded in `Except String`.  The repository's data files
`app/data/questionnaire.json` and `app/data/decision_tree.json` are not part
of the source tree, so concrete catalog instances used by witnesses and
counterexamples are modelled from the specification's scenario section.
-/

namespace Backend

/-! ## Python string primitives -/

/-- Embedding of Python `str.lower` on a character list (`Char.toLower`
matches CPython on the ASCII range used by the catalog). -/
def pyLowerChars (l : List Char) : List Char := l.map Char.toLower

/-- Embedding of Python `str.strip()`: drop whitespace from both ends. -/
def pyStripChars (l : List Char) : List Char :=
  ((l.dropWhile Char.isWhitespace).reverse.dropWhile Char.isWhitespace).reverse

/-- Python `s.lower()` at `String` level. -/
def pyLower (s : String) : String := ⟨pyLowerChars s.data⟩

/-- Python `s.lower().strip()` as used by `detect_symptom`. -/
def cleanComplaint (s : String) : List Char := pyStripChars (pyLowerChars s.data)

/-- Python substring containment `needle in hay`: some suffix of `hay`
starts with `needle` (the empty needle is contained in everything, matching
CPython). -/
def containsSub (needle : List Char) : List Char → Bool
  | [] => needle.isEmpty
  | c :: rest => needle.isPrefixOf (c :: rest) || containsSub needle rest

/-- Python `needle in hay` as used by `detect_symptom`: the keyword is
lower-cased at the call site (`keyword.lower() in complaint_lower`). -/
def kwHit (cl : List Char) (kw : String) : Bool :=
  containsSub (pyLowerChars kw.data) cl

/-- Python `opt.replace("_", " ")` for the single-character pattern used by
the source when rendering option labels. -/
def underscoreToSpace (l : List Char) : List Char :=
  l.map (fun c => if c = '_' then ' ' else c)

/-- Embedding of Python `str.title()`: upper-case a character that follows a
non-alphabetic character, lower-case the rest. -/
def pyTitleAux : Bool → List Char → List Char
  | _, [] => []
  | prevAlpha, c :: rest =>
    (if prevAlpha then c.toLower else c.toUpper) :: pyTitleAux c.isAlpha rest

/-- Label shown for a catalog option: `opt.replace("_", " ").title()`. -/
def optionLabel (o : String) : String := ⟨pyTitleAux false (underscoreToSpace o.data)⟩

/-! ## Python dictionaries as association lists -/

/-- Python `d[k]` / `d.get(k)` presence-aware lookup: `none` when the key is
absent, `some v` when present (`v` itself may encode Python `None`). -/
def dictGet (d : List (String × α)) (k : String) : Option α :=
  match d.find? (fun p => p.1 = k) with
  | some p => some p.2
  | none => none

/-- Python `d[k] = v`: update in place when the key exists (insertion order
kept), append otherwise. -/
def dictSet (d : List (String × α)) (k : String) (v : α) : List (String × α) :=
  if (d.find? (fun p => p.1 = k)).isSome then
    d.map (fun p => if p.1 = k then (k, v) else p)
  else d ++ [(k, v)]

/-- Python `k in d`. -/
def dictHas (d : List (String × α)) (k : String) : Bool :=
  (dictGet d k).isSome

/-- Python `del d[k]` (no-op when absent, as used via guarded deletes in
`cleanup_session`). -/
def dictDel (d : List (String × α)) (k : String) : List (String × α) :=
  d.filter (fun p => p.1 ≠ k)

/-! ## Data model: question catalog and decision tree

The JSON documents are read-only at runtime; their shapes follow
`load_questionnaire` / `load_decision_tree` consumers in the source. -/

/-- One entry of `questionnaire["questions"]` (or of a conditional set). -/
structure CatalogQuestion where
  id : String
  text : String
  qtype : String
  options : List String
  is_compulsory : Bool
deriving DecidableEq, Repr

/-- The questionnaire document: base questions plus the conditional set
stored under `questionnaire["conditional"]["q_gender=female"]`. -/
structure Questionnaire where
  questions : List CatalogQuestion
  conditionalFemale : List CatalogQuestion
deriving DecidableEq, Repr

/-- One entry of a symptom's `followup_questions` ordered mapping (the key
together with its question object; Python dict keys are unique and ordered,
so the mapping is embedded as a list of keyed entries). -/
structure FollowupQ where
  key : String
  question : String
  qtype : String
  options : Option (List String)
deriving DecidableEq, Repr

/-- One entry of `decision_tree["symptom_decision_tree"]["symptoms"]`;
`followup_questions := none` models a symptom object without that key. -/
structure Symptom where
  symptom_id : String
  label : String
  keywords : List String
  default_urgency : Option String
  followup_questions : Option (List FollowupQ)
deriving DecidableEq, Repr

/-- The decision-tree document. -/
structure DecisionTree where
  symptoms : List Symptom
deriving DecidableEq, Repr

/-- Result dictionary of `detect_symptom`. -/
structure SymptomMatch where
  symptom_id : String
  label : String
  matched_keyword : String
  default_urgency : String
deriving DecidableEq, Repr

/-! ## Symptom detection (`detect_symptom` in main.py, `_detect_symptom` in
web_routes.py — the two bodies are identical up to logging) -/

/-- Inner keyword loop: first keyword whose lower-casing occurs in the
cleaned complaint. -/
def findKeyword (cl : List Char) : List String → Option String
  | [] => none
  | kw :: rest => if kwHit cl kw then some kw else findKeyword cl rest

/-- Outer symptom loop of `detect_symptom`. -/
def detectAux (cl : List Char) : List Symptom → Option SymptomMatch
  | [] => none
  | sym :: rest =>
    match findKeyword cl sym.keywords with
    | some kw =>
      some ⟨sym.symptom_id, sym.label, kw, sym.default_urgency.getD "yellow_doctor_visit"⟩
    | none => detectAux cl rest

/-- Embedding of `detect_symptom(complaint_text)`: `None` on falsy (empty) input, else
first keyword hit over `complaint_text.lower().strip()` in catalog order. -/
def detect_symptom (tree : DecisionTree) (complaint : String) : Option SymptomMatch :=
  if complaint = "" then none
  else detectAux (cleanComplaint complaint) tree.symptoms

/-! ## Answer value extraction (main.py lines 466-473, web_routes.py lines
269-276 — identical code in both handlers) -/

/-- The answer payload dictionary (`answer_json` in S1, `answer` in S2).
Each field is `none` when the key is absent from the payload; a present key
carries its (string) value.  A present-with-`null` JSON value is not
distinguished from an absent key by this embedding; no claim depends on it. -/
structure AnswerPayload where
  ptype : Option String := none
  value : Option String := none
  selected_option_label : Option String := none
  selected_option_id : Option String := none
  selected_option_labels : Option (List String) := none
deriving DecidableEq, Repr

/-- Answer-value extraction exactly as written in both handlers.  Note that
Python `dict.get(k, default)` falls back only when the key is absent, so for
`single_choice` the first *present* key among `selected_option_label`,
`selected_option_id`, `value` wins even when its value is the empty string;
when all three are absent the stored value is Python `None`. -/
def extract_answer_value (p : AnswerPayload) : Option String :=
  if p.ptype = some "number" then p.value
  else if p.ptype = some "single_choice" then
    match p.selected_option_label with
    | some v => some v
    | none =>
      match p.selected_option_id with
      | some v => some v
      | none => p.value
  else if p.ptype = some "multi_choice" then
    some (String.intercalate ", " (p.selected_option_labels.getD []))
  else some (p.value.getD "")

/-! ## Gender-conditional checks (the four variants in the source) -/

/-- Recorded answers of a session: question id ↦ extracted value (the value
is `none` when Python stored `None`). -/
abbrev Answers := List (String × Option String)

/-- S1 `/assessment/answer` check (main.py 489-490):
`gender = answers.get("q_gender")` collapses absent and stored-`None`; then
`if gender and gender.lower() == "female"` (truthiness guards `None`/empty). -/
def genderIncludeS1 (answers : Answers) : Bool :=
  match dictGet answers "q_gender" with
  | some (some g) => g != "" && pyLower g == "female"
  | _ => false

/-- S2 `/web/assessment/answer` check (web_routes.py 288):
`answers.get("q_gender", "").lower() == "female"`.  When the key is present
with stored `None`, `.lower()` is called on `None` and raises
`AttributeError` — embedded as `Except.error`. -/
def genderIncludeS2 (answers : Answers) : Except String Bool :=
  match dictGet answers "q_gender" with
  | none => Except.ok (pyLower "" == "female")
  | some none => Except.error "AttributeError: NoneType object has no attribute lower"
  | some (some g) => Except.ok (pyLower g == "female")

/-- Legacy `POST /chat` check (main.py 1024):
`if "q_gender" in answers and answers["q_gender"] == "female"` — an exact,
case-sensitive comparison (Python `None == "female"` is `False`). -/
def genderIncludeChatS1 (answers : Answers) : Bool :=
  match dictGet answers "q_gender" with
  | some v => v == some "female"
  | none => false

/-! ## Session state and response models -/

/-- The per-session dictionary created by `start_assessment` /
`web_start_assessment` and mutated by the answer handlers.  The source
initialises `followup_questions` to Python `None` and later stores the
ordered mapping together with its key list; both are embedded as the single
keyed list `followups` (initially empty), which is read only in the
follow-up phase after being set. -/
structure SessionState where
  answers : Answers
  currentIndex : Nat
  totalQuestions : Nat
  phase : String
  followups : List FollowupQ
  followupIndex : Nat
  detectedSymptom : Option SymptomMatch
deriving DecidableEq, Repr

/-- The in-memory `sessions` (S1) / `web_sessions` (S2) dictionary. -/
abbrev Store := List (String × SessionState)

/-- The `Question` response model (S1 and S2 declare identical models);
`response_options` entries are `(id, label)` pairs. -/
structure OutQuestion where
  question_id : String
  text : String
  response_type : String
  response_options : Option (List (String × String))
  is_compulsory : Bool
deriving DecidableEq, Repr

/-- S1 `AnswerResponse`: `status` defaults to `"next"` and is never null. -/
structure AnswerResponseS1 where
  status : String := "next"
  question : Option OutQuestion := none
deriving DecidableEq, Repr

/-- S2 `AnswerResponse`: `status` defaults to `None`. -/
structure AnswerResponseS2 where
  status : Option String := none
  question : Option OutQuestion := none
deriving DecidableEq, Repr

/-- Option objects rendered by both servers:
`[{"id": opt, "label": opt.replace("_", " ").title()} for opt in options]`. -/
def optionEntries (opts : List String) : List (String × String) :=
  opts.map (fun o => (o, optionLabel o))

/-- S1 `build_question_response`: `response_type_map.get(type, "text")`
collapses unknown catalog types to `"text"`. -/
def response_type_map (t : String) : String :=
  if t = "text" then "text"
  else if t = "number" then "number"
  else if t = "single_choice" then "single_choice"
  else if t = "multi_choice" then "multi_choice"
  else "text"

/-- S1 `build_question_response` (main.py 329-353). -/
def build_question_response (qd : CatalogQuestion) : OutQuestion :=
  { question_id := qd.id
    text := qd.text
    response_type := response_type_map qd.qtype
    response_options :=
      if qd.qtype = "single_choice" ∨ qd.qtype = "multi_choice" then
        some (optionEntries qd.options)
      else none
    is_compulsory := qd.is_compulsory }

/-- S2 `_build_question_response` (web_routes.py 204-217): identical to the
S1 helper except that the catalog type is passed through unmapped. -/
def build_question_responseS2 (qd : CatalogQuestion) : OutQuestion :=
  { question_id := qd.id
    text := qd.text
    response_type := qd.qtype
    response_options :=
      if qd.qtype = "single_choice" ∨ qd.qtype = "multi_choice" then
        some (optionEntries qd.options)
      else none
    is_compulsory := qd.is_compulsory }

/-- Follow-up question rendering, identical in S1 (main.py 533-542, 598-607)
and S2 (web_routes.py 317-326, 349-358): the raw type is passed through and
`is_compulsory` is always `True`. -/
def followupOutQuestion (fq : FollowupQ) : OutQuestion :=
  { question_id := fq.key
    text := fq.question
    response_type := fq.qtype
    response_options :=
      match fq.options with
      | some opts => some (optionEntries opts)
      | none => none
    is_compulsory := true }

/-! ## Answer submission handlers -/

/-- The request of `POST /assessment/answer` (S1 reads
`req.question_id` / `req.answer_json`; S2 reads `req.question.question_id` /
`req.answer` — the same two values). -/
structure SubmitReq where
  question_id : String
  payload : AnswerPayload
deriving DecidableEq, Repr

/-- Chief-complaint lookup `answers.get("q_current_ailment", "")`: the
default applies only when the key is absent; a stored `None` comes through
as `none`. -/
def chiefComplaint (answers : Answers) : Option String :=
  match dictGet answers "q_current_ailment" with
  | none => some ""
  | some v => v

/-- Embedding of `detected = detect_symptom(chief_complaint) if chief_complaint else None`
(truthiness: Python `None` and the empty string are falsy). -/
def detectFromAnswers (tree : DecisionTree) (answers : Answers) : Option SymptomMatch :=
  match chiefComplaint answers with
  | some s => if s = "" then none else detect_symptom tree s
  | none => none

/-- Embedding of `symptom_data = next((s for s in symptoms if s["symptom_id"] == symptom_id), None)`. -/
def findSymptomData (tree : DecisionTree) (symptomId : String) : Option Symptom :=
  tree.symptoms.find? (fun s => s.symptom_id = symptomId)

/-- S1 `submit_answer` (`POST /assessment/answer`, main.py 448-614).  The
handler mutates the session entry in place, so every returned store carries
the recorded answer.  `Except.error` marks the only statements that can
raise: `question_keys[0]` on an empty (but present) `followup_questions`
mapping, and the index accesses that the surrounding guards keep in range. -/
def submitAnswerS1 (q : Questionnaire) (tree : DecisionTree) (store : Store)
    (sid : String) (req : SubmitReq) : Except String (Store × AnswerResponseS1) :=
  match dictGet store sid with
  | none => Except.ok (store, { status := "error" })
  | some st0 =>
    let answer_value := extract_answer_value req.payload
    let answers := dictSet st0.answers req.question_id answer_value
    let st := { st0 with answers := answers }
    if st.phase = "questionnaire" then
      let all_questions :=
        q.questions ++ (if genderIncludeS1 answers then q.conditionalFemale else [])
      let next_index := st.currentIndex + 1
      if next_index ≥ all_questions.length then
        match detectFromAnswers tree answers with
        | some detected =>
          match findSymptomData tree detected.symptom_id with
          | some symptom_data =>
            match symptom_data.followup_questions with
            | some followup_qs =>
              match followup_qs with
              | [] => Except.error "IndexError: list index out of range"
              | fq :: rest =>
                let st2 := { st with
                  phase := "followup"
                  followups := fq :: rest
                  followupIndex := 0
                  detectedSymptom := some detected }
                Except.ok (dictSet store sid st2,
                  { question := some (followupOutQuestion fq) })
            | none => Except.ok (dictSet store sid st, { status := "completed" })
          | none => Except.ok (dictSet store sid st, { status := "completed" })
        | none => Except.ok (dictSet store sid st, { status := "completed" })
      else
        match all_questions.get? next_index with
        | some next_q =>
          let st2 := { st with currentIndex := next_index }
          Except.ok (dictSet store sid st2,
            { question := some (build_question_response next_q) })
        | none => Except.error "IndexError: list index out of range"
    else
      let next_index := st.followupIndex + 1
      if next_index ≥ st.followups.length then
        Except.ok (dictSet store sid st, { status := "completed" })
      else
        match st.followups.get? next_index with
        | some fq =>
          let st2 := { st with followupIndex := next_index }
          Except.ok (dictSet store sid st2,
            { question := some (followupOutQuestion fq) })
        | none => Except.error "IndexError: list index out of range"

/-- S2 `web_submit_answer` (`POST /web/assessment/answer`, web_routes.py
258-359).  Differs from S1 in: the gender check (which raises on a stored
`None` — on a raise the in-place answer mutation has already happened but no
response is produced, so only the error escapes), the unmapped response type
of `_build_question_response`, and the `status` default of `None`. -/
def submitAnswerS2 (q : Questionnaire) (tree : DecisionTree) (store : Store)
    (sid : String) (req : SubmitReq) : Except String (Store × AnswerResponseS2) :=
  match dictGet store sid with
  | none => Except.ok (store, { status := some "error" })
  | some st0 =>
    let answer_value := extract_answer_value req.payload
    let answers := dictSet st0.answers req.question_id answer_value
    let st := { st0 with answers := answers }
    if st.phase = "questionnaire" then
      match genderIncludeS2 answers with
      | Except.error e => Except.error e
      | Except.ok includeFemale =>
        let all_questions :=
          q.questions ++ (if includeFemale then q.conditionalFemale else [])
        let next_index := st.currentIndex + 1
        if next_index ≥ all_questions.length then
          match detectFromAnswers tree answers with
          | some detected =>
            match findSymptomData tree detected.symptom_id with
            | some symptom_data =>
              match symptom_data.followup_questions with
              | some followup_qs =>
                match followup_qs with
                | [] => Except.error "IndexError: list index out of range"
                | fq :: rest =>
                  let st2 := { st with
                    phase := "followup"
                    followups := fq :: rest
                    followupIndex := 0
                    detectedSymptom := some detected }
                  Except.ok (dictSet store sid st2,
                    { question := some (followupOutQuestion fq) })
              | none => Except.ok (dictSet store sid st, { status := some "completed" })
            | none => Except.ok (dictSet store sid st, { status := some "completed" })
          | none => Except.ok (dictSet store sid st, { status := some "completed" })
        else
          match all_questions.get? next_index with
          | some next_q =>
            let st2 := { st with currentIndex := next_index }
            Except.ok (dictSet store sid st2,
              { question := some (build_question_responseS2 next_q) })
          | none => Except.error "IndexError: list index out of range"
    else
      let next_index := st.followupIndex + 1
      if next_index ≥ st.followups.length then
        Except.ok (dictSet store sid st, { status := some "completed" })
      else
        match st.followups.get? next_index with
        | some fq =>
          let st2 := { st with followupIndex := next_index }
          Except.ok (dictSet store sid st2,
            { question := some (followupOutQuestion fq) })
        | none => Except.error "IndexError: list index out of range"

/-! ## Session lifecycle handlers -/

/-- The fresh session dictionary written by `start_assessment` (main.py
391-399) and `web_start_assessment` (web_routes.py 243-251). -/
def freshSessionState (q : Questionnaire) : SessionState :=
  { answers := []
    currentIndex := 0
    totalQuestions := q.questions.length
    phase := "questionnaire"
    followups := []
    followupIndex := 0
    detectedSymptom := none }

/-- Handler `GET /assessment/start` (main.py 369-445, state-machine part; the
JWT-gated `stored_answers` enrichment touches no session state and is out of
scope).  `sid` stands for the freshly drawn `uuid4()`; the handler
unconditionally writes a brand-new session under it and returns the first
base question — it never consults existing sessions.  `questions[0]` raises
on an empty catalog. -/
def startAssessmentS1 (q : Questionnaire) (store : Store) (sid : String) :
    Except String (Store × OutQuestion) :=
  match q.questions.get? 0 with
  | none => Except.error "IndexError: list index out of range"
  | some first_q =>
    Except.ok (dictSet store sid (freshSessionState q), build_question_response first_q)

/-- Function `cleanup_session` (main.py 299-326) restricted to the `sessions` store
read by `submit_answer` (the other four dictionaries hold report/LLM data
that the answer handlers never read).  Deletes the entry and reports whether
any store contained the id. -/
def cleanup_session (store : Store) (sid : String) : Store × Bool :=
  (dictDel store sid, dictHas store sid)

/-- Handler `POST /assessment/end` (main.py 1276-1295). -/
def endAssessmentS1 (store : Store) (sid : String) : Store × String :=
  let r := cleanup_session store sid
  (r.1, if r.2 then "ended" else "not_found")

/-! ## DB layer (`assessment_db.py`) — no HTTP route in the source calls
these functions, but the spec's lifecycle contract cites them. -/

/-- A row of `assessment_sessions`. -/
structure DbSession where
  session_id : String
  user_id : String
  status : String
  phase : String
  detected_symptom : Option String
deriving DecidableEq, Repr

/-- Function `create_session(user_id)` (assessment_db.py 132-165): expire every
previously active session of the user, then insert a fresh active
questionnaire-phase row (`sid` stands for the generated UUID). -/
def dbCreateSession (tbl : List DbSession) (uid sid : String) :
    List DbSession × DbSession :=
  let expired := tbl.map (fun r =>
    if r.user_id = uid ∧ r.status = "active" then { r with status := "expired" } else r)
  let row : DbSession :=
    { session_id := sid, user_id := uid, status := "active",
      phase := "questionnaire", detected_symptom := none }
  (expired ++ [row], row)

/-! ## Concrete catalog instances

The repository's `app/data/questionnaire.json` and
`app/data/decision_tree.json` are not part of the source tree; the instances
below, used by witnesses and counterexamples, are modelled from the
specification's scenario section. -/

/-- Modelled from the spec: the scenario catalog of spec section 8 — base
questions `q_gender` (single choice) and `q_current_ailment` (text), with
the conditional set `q_gender=female` containing `q_pregnant`; the data file
`app/data/questionnaire.json` is missing from src. -/
def specQuestionnaire : Questionnaire :=
  { questions :=
      [ { id := "q_gender", text := "What is your gender?",
          qtype := "single_choice", options := ["male", "female"],
          is_compulsory := true },
        { id := "q_current_ailment", text := "What is bothering you today?",
          qtype := "text", options := [], is_compulsory := true } ]
    conditionalFemale :=
      [ { id := "q_pregnant", text := "Are you pregnant?",
          qtype := "single_choice", options := ["yes", "no"],
          is_compulsory := true } ] }

/-- Modelled from the spec: follow-up questions of the `headache` symptom
(ordered, question text plus type, options where choice-typed). -/
def headacheFollowups : List FollowupQ :=
  [ { key := "fq_duration", question := "How long have you had the headache?",
      qtype := "text", options := none },
    { key := "fq_severity", question := "How severe is it?",
      qtype := "single_choice", options := some ["mild", "severe"] } ]

/-- Modelled from the spec: a decision tree with symptoms `chest_pain`
(keyword "chest pain") listed before `headache` (keyword "headache"), each
carrying a follow-up question set and a default urgency; the data file
`app/data/decision_tree.json` is missing from src. -/
def specTree : DecisionTree :=
  { symptoms :=
      [ { symptom_id := "chest_pain", label := "Chest Pain",
          keywords := ["chest pain"], default_urgency := some "red_emergency",
          followup_questions := some
            [ { key := "fq_cp_onset", question := "When did the pain start?",
                qtype := "text", options := none } ] },
        { symptom_id := "headache", label := "Headache",
          keywords := ["headache"], default_urgency := some "yellow_doctor_visit",
          followup_questions := some headacheFollowups } ] }

/-- Modelled from the spec: the two-symptom ordering example of spec section
8 — symptom A with keyword "chest pain" listed before symptom B with keyword
"pain". -/
def specTreeAB : DecisionTree :=
  { symptoms :=
      [ { symptom_id := "sym_a", label := "Symptom A",
          keywords := ["chest pain"], default_urgency := some "red_emergency",
          followup_questions := some
            [ { key := "fq_a", question := "Question A?",
                qtype := "text", options := none } ] },
        { symptom_id := "sym_b", label := "Symptom B",
          keywords := ["pain"], default_urgency := some "yellow_doctor_visit",
          followup_questions := some
            [ { key := "fq_b", question := "Question B?",
                qtype := "text", options := none } ] } ] }

/-- Modelled from the spec: a decision tree whose `headache` entry carries
keywords but no `followup_questions` key — the malformed-catalog case of the
spec's configuration-error discussion. -/
def treeNoFollowup : DecisionTree :=
  { symptoms :=
      [ { symptom_id := "headache", label := "Headache",
          keywords := ["headache"], default_urgency := some "yellow_doctor_visit",
          followup_questions := none } ] }

end Backend

deriving instance DecidableEq for Except

namespace Backend

/-! ## Shared lemmas -/

/-- Lower-casing the empty string cannot produce "female", so a lower-case
match already implies the gender answer is nonempty. -/
theorem pyLower_eq_female_ne_empty (g : String) (h : pyLower g = "female") : g ≠ "" := by
  intro h2
  subst h2
  exact absurd h (by decide)

/-- After deleting a key, lookup of that key fails. -/
theorem dictGet_dictDel_self (d : List (String × α)) (k : String) :
    dictGet (dictDel d k) k = none := by
  induction d with
  | nil => rfl
  | cons p rest ih =>
    by_cases h : p.1 = k
    · simpa [dictDel, dictGet, List.filter, h] using ih
    · simpa [dictDel, dictGet, List.filter, List.find?, h] using ih

/-! ## C4 — answer value extraction -/

/-- The first non-empty entry of a candidate list — the extraction rule as
the claim words it for `single_choice` ("first non-empty in that order"). -/
def firstNonEmpty : List (Option String) → Option String
  | [] => none
  | none :: rest => firstNonEmpty rest
  | some s :: rest => if s = "" then firstNonEmpty rest else some s

/-- The claimed `single_choice` rule: first non-empty among the selected
option's label, its id, and the plain value field. -/
def claimedSingleChoice (p : AnswerPayload) : Option String :=
  firstNonEmpty [p.selected_option_label, p.selected_option_id, p.value]

/-- A `single_choice` payload whose `selected_option_label` key is present
but empty while `selected_option_id` is present and non-empty. -/
def c4Payload : AnswerPayload :=
  { ptype := some "single_choice", selected_option_label := some "",
    selected_option_id := some "opt1" }

/-- C4 counterexample: on a payload with a present-but-empty
`selected_option_label`, the handlers extract the empty label (Python
`dict.get` falls back only on an absent key), not the first non-empty
candidate `"opt1"` required by the claim. -/
theorem c4_counterexample :
    extract_answer_value c4Payload = some "" ∧
    claimedSingleChoice c4Payload = some "opt1" ∧
    extract_answer_value c4Payload ≠ claimedSingleChoice c4Payload := by
  refine ⟨by decide, by decide, by decide⟩

/-- C4 (amended): the extracted canonical value follows the type
discriminator with *key-presence* fallbacks — for `single_choice` the first
present key among `selected_option_label`, `selected_option_id`, `value`
wins regardless of emptiness (`none` when all three are absent); for
`multi_choice` the submitted labels are joined with ", "; for `number` the
plain value key; for an unknown or missing type the plain value defaulting
to the empty string. -/
theorem c4_extraction_first_present (p : AnswerPayload) :
    (p.ptype = some "single_choice" →
      extract_answer_value p =
        (p.selected_option_label.orElse fun _ =>
          p.selected_option_id.orElse fun _ => p.value)) ∧
    (p.ptype = some "multi_choice" →
      extract_answer_value p =
        some (String.intercalate ", " (p.selected_option_labels.getD []))) ∧
    (p.ptype = some "number" → extract_answer_value p = p.value) ∧
    (p.ptype = none → extract_answer_value p = some (p.value.getD "")) ∧
    (∀ t, p.ptype = some t → t ≠ "number" → t ≠ "single_choice" →
      t ≠ "multi_choice" → extract_answer_value p = some (p.value.getD "")) := by
  refine ⟨?_, ?_, ?_, ?_, ?_⟩
  · intro h
    simp only [extract_answer_value, h]
    rw [if_neg (by decide), if_pos (by decide)]
    cases p.selected_option_label <;> cases p.selected_option_id <;> rfl
  · intro h
    simp only [extract_answer_value, h]
    rw [if_neg (by decide), if_neg (by decide), if_pos (by decide)]
  · intro h
    simp only [extract_answer_value, h]
    rw [if_pos (by decide)]
  · intro h
    simp only [extract_answer_value, h]
    rw [if_neg (by decide), if_neg (by decide), if_neg (by decide)]
  · intro t h h1 h2 h3
    simp only [extract_answer_value, h]
    rw [if_neg (fun hc => h1 (Option.some.inj hc)),
      if_neg (fun hc => h2 (Option.some.inj hc)),
      if_neg (fun hc => h3 (Option.some.inj hc))]

/-- A `single_choice` payload carrying only an option id. -/
def c4SinglePayload : AnswerPayload :=
  { ptype := some "single_choice", selected_option_id := some "x" }

/-- A `multi_choice` payload with two submitted labels. -/
def c4MultiPayload : AnswerPayload :=
  { ptype := some "multi_choice", selected_option_labels := some ["a", "b"] }

/-- C4 witness: the amended extraction rules applied to concrete payloads of
two discriminators. -/
theorem c4_witness :
    extract_answer_value c4SinglePayload = some "x" ∧
    extract_answer_value c4MultiPayload = some "a, b" := by
  constructor
  · have h := (c4_extraction_first_present c4SinglePayload).1 rfl
    simpa [c4SinglePayload] using h
  · have h := (c4_extraction_first_present c4MultiPayload).2.1 rfl
    simpa [c4MultiPayload] using h

/-! ## C5 — gender-conditional inclusion -/

/-- Recorded answers containing a capitalised gender value. -/
def c5Answers : Answers := [("q_gender", some "Female")]

/-- C5 counterexample: with the recorded gender answer "Female" (equal to
"female" case-insensitively), the `/assessment/answer` check includes the
conditional set but the legacy `POST /chat` check — one of the claim's cited
sites — compares exactly and excludes it, so inclusion is not everywhere
case-insensitive. -/
theorem c5_counterexample :
    pyLower "Female" = "female" ∧
    genderIncludeS1 c5Answers = true ∧
    genderIncludeChatS1 c5Answers = false := by
  refine ⟨by decide, by decide, by decide⟩

/-- C5 (amended): in the production answer handlers the conditional set is
included iff a gender answer is recorded whose lower-casing equals "female"
(case-insensitive, hence excluded before the answer exists); in the legacy
`POST /chat` handler inclusion instead requires the recorded value to equal
"female" exactly (case-sensitive). -/
theorem c5_gender_condition (answers : Answers) :
    (genderIncludeS1 answers = true ↔
      ∃ g, dictGet answers "q_gender" = some (some g) ∧ pyLower g = "female") ∧
    (genderIncludeS2 answers = Except.ok true ↔
      ∃ g, dictGet answers "q_gender" = some (some g) ∧ pyLower g = "female") ∧
    (genderIncludeChatS1 answers = true ↔
      dictGet answers "q_gender" = some (some "female")) := by
  refine ⟨?_, ?_, ?_⟩
  · unfold genderIncludeS1
    rcases h : dictGet answers "q_gender" with _ | (_ | g)
    · simp
    · simp
    · simp only [Bool.and_eq_true, bne_iff_ne, beq_iff_eq, Option.some.injEq]
      constructor
      · rintro ⟨-, h2⟩
        exact ⟨g, rfl, h2⟩
      · rintro ⟨g2, hg, h2⟩
        obtain rfl : g = g2 := hg
        exact ⟨pyLower_eq_female_ne_empty g h2, h2⟩
  · unfold genderIncludeS2
    rcases h : dictGet answers "q_gender" with _ | (_ | g)
    · simp
      decide
    · simp
    · simp only [Except.ok.injEq, beq_iff_eq]
      constructor
      · intro h2
        exact ⟨g, rfl, h2⟩
      · rintro ⟨g2, hg, h2⟩
        obtain rfl : g = g2 := Option.some.inj (Option.some.inj hg)
        exact h2
  · unfold genderIncludeChatS1
    rcases h : dictGet answers "q_gender" with _ | (_ | g)
    · simp
    · simp
    · simp

/-! ## Concrete session data for the remaining claims -/

/-- The rendered second base question (text type, no options). -/
def specAilmentQuestion : OutQuestion :=
  { question_id := "q_current_ailment"
    text := "What is bothering you today?"
    response_type := "text"
    response_options := none
    is_compulsory := true }

/-- A questionnaire-phase session that has answered the gender question and
sits at index 0. -/
def c1StateA : SessionState :=
  { answers := [("q_gender", some "male")]
    currentIndex := 0
    totalQuestions := 2
    phase := "questionnaire"
    followups := []
    followupIndex := 0
    detectedSymptom := none }

/-- The same recorded answers and phase as `c1StateA`, but index 1. -/
def c1StateB : SessionState :=
  { answers := [("q_gender", some "male")]
    currentIndex := 1
    totalQuestions := 2
    phase := "questionnaire"
    followups := []
    followupIndex := 0
    detectedSymptom := none }

/-- A session where every base question already has a recorded answer but
the index still sits at 0. -/
def c1StateC : SessionState :=
  { answers := [("q_gender", some "male"), ("q_current_ailment", some "sore")]
    currentIndex := 0
    totalQuestions := 2
    phase := "questionnaire"
    followups := []
    followupIndex := 0
    detectedSymptom := none }

/-- Three sessions differing only in per-session index bookkeeping. -/
def c1Store : Store := [("a", c1StateA), ("b", c1StateB), ("c", c1StateC)]

/-- A resubmission of the already-answered gender question. -/
def c1Req : SubmitReq :=
  { question_id := "q_gender"
    payload := { ptype := some "single_choice", selected_option_label := some "male" } }

/-- C1 counterexample: sessions "a" and "b" have identical phase and
identical recorded answers, yet the same submission returns the second base
question to "a" and "completed" to "b" — the next question depends on the
per-session `current_index`, not on the recorded answers alone.  Session "c"
moreover receives `q_current_ailment` although that id already has a
recorded answer, refuting the first-unanswered-question rule. -/
theorem c1_counterexample :
    c1StateA.answers = c1StateB.answers ∧ c1StateA.phase = c1StateB.phase ∧
    (submitAnswerS1 specQuestionnaire specTree c1Store "a" c1Req).map (fun r => r.2) =
      Except.ok { status := "next", question := some specAilmentQuestion } ∧
    (submitAnswerS1 specQuestionnaire specTree c1Store "b" c1Req).map (fun r => r.2) =
      Except.ok { status := "completed", question := none } ∧
    dictGet c1StateC.answers "q_current_ailment" = some (some "sore") ∧
    (submitAnswerS1 specQuestionnaire specTree c1Store "c" c1Req).map (fun r => r.2) =
      Except.ok { status := "next", question := some specAilmentQuestion } := by
  refine ⟨by decide, by decide, by decide, by decide, by decide, by decide⟩

/-! ## C6 — missing follow-up set -/

/-- A session one answer away from exhausting the base questionnaire. -/
def c6Store : Store :=
  [("s",
    { answers := [("q_gender", some "male")]
      currentIndex := 1
      totalQuestions := 2
      phase := "questionnaire"
      followups := []
      followupIndex := 0
      detectedSymptom := none })]

/-- The final questionnaire answer, a chief complaint matching "headache". -/
def c6Req : SubmitReq :=
  { question_id := "q_current_ailment"
    payload := { ptype := some "text", value := some "bad headache" } }

/-- C6: with a decision tree whose matched symptom entry has no
`followup_questions` key, the exhausting submission silently returns
status "completed" — no error, no log-and-fail — and the session stays in
the questionnaire phase with no symptom recorded, although the chief
complaint did match the symptom.  This is the silent skip that the claim
(and the spec's error-handling section) forbids. -/
theorem c6_silent_completion :
    detect_symptom treeNoFollowup "bad headache" =
      some ⟨"headache", "Headache", "headache", "yellow_doctor_visit"⟩ ∧
    (submitAnswerS1 specQuestionnaire treeNoFollowup c6Store "s" c6Req).map (fun r => r.2) =
      Except.ok { status := "completed", question := none } ∧
    (submitAnswerS1 specQuestionnaire treeNoFollowup c6Store "s" c6Req).map
        (fun r => (dictGet r.1 "s").map (fun st => (st.phase, st.detectedSymptom))) =
      Except.ok (some ("questionnaire", none)) := by
  refine ⟨by decide, by decide, by decide⟩

/-! ## C8 — end then submit -/

/-- A session mid-followup (symptom detected, first follow-up outstanding). -/
def c8Store : Store :=
  [("s1",
    { answers := [("q_gender", some "male"), ("q_current_ailment", some "bad headache")]
      currentIndex := 1
      totalQuestions := 2
      phase := "followup"
      followups := headacheFollowups
      followupIndex := 0
      detectedSymptom := some ⟨"headache", "Headache", "headache", "yellow_doctor_visit"⟩ })]

/-- A follow-up answer submitted after the session was ended. -/
def c8Req : SubmitReq :=
  { question_id := "fq_duration"
    payload := { ptype := some "text", value := some "two days" } }

/-- C8 counterexample: ending a mid-followup session removes it from the
store outright — no record with status "expired" remains — and the
subsequent submission is rejected through the session-not-found path with
the generic status "error", not a Forbidden/not-active distinction (the
handler tracks neither status nor owner). -/
theorem c8_counterexample :
    endAssessmentS1 c8Store "s1" = ([], "ended") ∧
    submitAnswerS1 specQuestionnaire specTree (endAssessmentS1 c8Store "s1").1 "s1" c8Req =
      Except.ok ([], { status := "error", question := none }) := by
  refine ⟨by decide, by decide⟩

/-- C8 (amended): after `POST /assessment/end` deletes a session from the
in-memory stores, the session id no longer resolves, and every subsequent
`submit_answer` for it — any request, any catalog — returns the rejection
response with status "error" and no question, leaving the store unchanged;
nothing is silently accepted. -/
theorem c8_end_then_submit_rejected (store : Store) (sid : String) (q : Questionnaire)
    (tree : DecisionTree) (req : SubmitReq) :
    dictGet (endAssessmentS1 store sid).1 sid = none ∧
    submitAnswerS1 q tree (endAssessmentS1 store sid).1 sid req =
      Except.ok ((endAssessmentS1 store sid).1, { status := "error", question := none }) := by
  have h : dictGet (endAssessmentS1 store sid).1 sid = none := by
    simpa [endAssessmentS1, cleanup_session] using dictGet_dictDel_self store sid
  refine ⟨h, ?_⟩
  unfold submitAnswerS1
  rw [h]

/-! ## C9 and C10 — S1/S2 divergence on a stored None -/

/-- A session whose recorded gender value is Python `None` (produced by a
`single_choice` payload carrying none of label, id, value). -/
def c9Store : Store :=
  [("s",
    { answers := [("q_gender", none)]
      currentIndex := 0
      totalQuestions := 2
      phase := "questionnaire"
      followups := []
      followupIndex := 0
      detectedSymptom := none })]

/-- A well-typed text answer for the chief-complaint question. -/
def c9Req : SubmitReq :=
  { question_id := "q_current_ailment"
    payload := { ptype := some "text", value := some "feeling fine" } }

/-- C9: on the identical session state (stored gender `None`) and identical
request, S1 `submit_answer` returns the next question while S2
`web_submit_answer` raises `AttributeError` at its unguarded
`answers.get("q_gender", "").lower()` — the two handlers are not
equivalent, contradicting the S2 module docstring "Exact replica of S1". -/
theorem c9_divergence :
    (submitAnswerS1 specQuestionnaire specTree c9Store "s" c9Req).map (fun r => r.2) =
      Except.ok { status := "next", question := some specAilmentQuestion } ∧
    submitAnswerS2 specQuestionnaire specTree c9Store "s" c9Req =
      Except.error "AttributeError: NoneType object has no attribute lower" := by
  refine ⟨by decide, by decide⟩

/-- The `single_choice` payload with none of the three value keys. -/
def c10Payload : AnswerPayload := { ptype := some "single_choice" }

/-- The gender question answered with the empty `single_choice` payload. -/
def c10Req : SubmitReq := { question_id := "q_gender", payload := c10Payload }

/-- A freshly started session. -/
def c10Store : Store := [("s", freshSessionState specQuestionnaire)]

/-- C10: a well-typed `single_choice` submission for the gender question
with none of label, id, value stores Python `None`; the S2 gender check in
the very same call (and every later questionnaire-phase call) then raises
`AttributeError` instead of returning a response, while S1 on the same
state and request returns the next question without error. -/
theorem c10_gender_none_crash :
    extract_answer_value c10Payload = none ∧
    submitAnswerS2 specQuestionnaire specTree c10Store "s" c10Req =
      Except.error "AttributeError: NoneType object has no attribute lower" ∧
    (submitAnswerS1 specQuestionnaire specTree c10Store "s" c10Req).map (fun r => r.2) =
      Except.ok { status := "next", question := some specAilmentQuestion } := by
  refine ⟨by decide, by decide, by decide⟩

/-! ## C7 — start never resumes -/

/-- An existing mid-questionnaire session (its first unanswered question is
`q_current_ailment`). -/
def c7Store : Store :=
  [("old",
    { answers := [("q_gender", some "male")]
      currentIndex := 0
      totalQuestions := 2
      phase := "questionnaire"
      followups := []
      followupIndex := 0
      detectedSymptom := none })]

/-- C7 counterexample: although an active session exists (with an answer
already recorded and `q_current_ailment` pending), the start handler
creates a brand-new empty session under the fresh id and returns the first
catalog question `q_gender` — it does not resume the existing session. -/
theorem c7_counterexample :
    startAssessmentS1 specQuestionnaire c7Store "new" =
      Except.ok (c7Store ++ [("new", freshSessionState specQuestionnaire)],
        { question_id := "q_gender"
          text := "What is your gender?"
          response_type := "single_choice"
          response_options := some [("male", "Male"), ("female", "Female")]
          is_compulsory := true }) ∧
    (freshSessionState specQuestionnaire).answers = [] ∧
    dictGet c7Store "old" ≠ none := by
  refine ⟨by decide, by decide, by decide⟩

/-! ## C1 — next-question computation -/

/-- C1 (amended): in the questionnaire phase the next question is selected
purely by position — it is the entry at `current_index + 1` of the built
question list (base questions plus the conditional set when the gender
check passes), whenever that position exists, independently of which
question ids already have recorded answers; the submission also records the
answer and advances the per-session index. -/
theorem c1_next_question_index_based (q : Questionnaire) (tree : DecisionTree)
    (store : Store) (sid : String) (req : SubmitReq) (st : SessionState)
    (nq : CatalogQuestion)
    (h1 : dictGet store sid = some st)
    (h2 : st.phase = "questionnaire")
    (h3 : (q.questions ++ (if genderIncludeS1 (dictSet st.answers req.question_id
        (extract_answer_value req.payload)) then q.conditionalFemale else [])).get?
      (st.currentIndex + 1) = some nq) :
    submitAnswerS1 q tree store sid req =
      Except.ok (dictSet store sid
        { st with answers := dictSet st.answers req.question_id (extract_answer_value req.payload),
                  currentIndex := st.currentIndex + 1 },
        { status := "next", question := some (build_question_response nq) }) := by
  have hlt : st.currentIndex + 1 <
      (q.questions ++ (if genderIncludeS1 (dictSet st.answers req.question_id
        (extract_answer_value req.payload)) then q.conditionalFemale else [])).length := by
    by_contra hle
    rw [List.get?_eq_none.mpr (Nat.le_of_not_lt hle)] at h3
    exact Option.noConfusion h3
  simp only [submitAnswerS1, h1, h2]
  rw [if_pos trivial, if_neg (Nat.not_le.mpr hlt), h3]

/-- The second base question of the modelled catalog, as a catalog entry. -/
def specAilmentCatalogQ : CatalogQuestion :=
  { id := "q_current_ailment", text := "What is bothering you today?",
    qtype := "text", options := [], is_compulsory := true }

/-- C1 witness: session "a" of the counterexample store receives the
position-selected question. -/
theorem c1_witness :
    submitAnswerS1 specQuestionnaire specTree c1Store "a" c1Req =
      Except.ok (dictSet c1Store "a"
        { c1StateA with
          answers := dictSet c1StateA.answers c1Req.question_id
            (extract_answer_value c1Req.payload)
          currentIndex := c1StateA.currentIndex + 1 },
        { status := "next", question := some (build_question_response specAilmentCatalogQ) }) :=
  c1_next_question_index_based specQuestionnaire specTree c1Store "a" c1Req c1StateA
    specAilmentCatalogQ (by decide) (by decide) (by decide)

/-! ## C2 — phase transition on questionnaire exhaustion -/

/-- C2: when a submission exhausts the built question list, then — with a
symptom detected from the chief complaint and a non-empty follow-up set in
the tree — the very same call switches the session to the followup phase,
records the detected symptom, and returns the first follow-up question;
with no symptom detected the same call returns "completed" and the stored
session keeps its questionnaire phase and absent symptom (only the answers
change). -/
theorem c2_exhaustion_transition (q : Questionnaire) (tree : DecisionTree)
    (store : Store) (sid : String) (req : SubmitReq) (st : SessionState)
    (answers2 : Answers)
    (h1 : dictGet store sid = some st)
    (h2 : st.phase = "questionnaire")
    (hans : answers2 = dictSet st.answers req.question_id (extract_answer_value req.payload))
    (hex : (q.questions ++ (if genderIncludeS1 answers2 then q.conditionalFemale
      else [])).length ≤ st.currentIndex + 1) :
    (∀ detected sd fq rest,
      detectFromAnswers tree answers2 = some detected →
      findSymptomData tree detected.symptom_id = some sd →
      sd.followup_questions = some (fq :: rest) →
      submitAnswerS1 q tree store sid req =
        Except.ok (dictSet store sid
          { st with answers := answers2, phase := "followup", followups := fq :: rest,
                    followupIndex := 0, detectedSymptom := some detected },
          { status := "next", question := some (followupOutQuestion fq) })) ∧
    (detectFromAnswers tree answers2 = none →
      submitAnswerS1 q tree store sid req =
        Except.ok (dictSet store sid { st with answers := answers2 },
          { status := "completed", question := none })) := by
  subst hans
  constructor
  · intro detected sd fq rest hdet hfind hfu
    simp only [submitAnswerS1, h1, h2]
    rw [if_pos trivial, if_pos hex]
    simp only [hdet, hfind, hfu]
  · intro hdet
    simp only [submitAnswerS1, h1, h2]
    rw [if_pos trivial, if_pos hex]
    simp only [hdet]

/-- A session one answer away from exhausting the base questionnaire, for
exercising both exhaustion branches. -/
def c2Store : Store :=
  [("s",
    { answers := [("q_gender", some "male")]
      currentIndex := 1
      totalQuestions := 2
      phase := "questionnaire"
      followups := []
      followupIndex := 0
      detectedSymptom := none })]

/-- The session dictionary stored in `c2Store`. -/
def c2State : SessionState :=
  { answers := [("q_gender", some "male")]
    currentIndex := 1
    totalQuestions := 2
    phase := "questionnaire"
    followups := []
    followupIndex := 0
    detectedSymptom := none }

/-- A chief complaint matching the `headache` symptom. -/
def c2Req : SubmitReq :=
  { question_id := "q_current_ailment"
    payload := { ptype := some "text", value := some "bad headache" } }

/-- A chief complaint matching no symptom. -/
def c2ReqNone : SubmitReq :=
  { question_id := "q_current_ailment"
    payload := { ptype := some "text", value := some "feeling fine" } }

/-- The headache symptom match produced by the modelled tree. -/
def c2HeadacheMatch : SymptomMatch :=
  { symptom_id := "headache", label := "Headache", matched_keyword := "headache",
    default_urgency := "yellow_doctor_visit" }

/-- The headache entry of the modelled tree. -/
def c2HeadacheSymptom : Symptom :=
  { symptom_id := "headache", label := "Headache", keywords := ["headache"],
    default_urgency := some "yellow_doctor_visit",
    followup_questions := some headacheFollowups }

/-- C2 witness: both exhaustion branches exercised on the modelled catalog —
a matching chief complaint transitions to the followup phase in the same
call; a non-matching one completes with the phase untouched. -/
theorem c2_witness :
    submitAnswerS1 specQuestionnaire specTree c2Store "s" c2Req =
      Except.ok (dictSet c2Store "s"
        { c2State with
          answers := dictSet c2State.answers c2Req.question_id
            (extract_answer_value c2Req.payload)
          phase := "followup"
          followups := headacheFollowups
          followupIndex := 0
          detectedSymptom := some c2HeadacheMatch },
        { status := "next",
          question := some (followupOutQuestion
            { key := "fq_duration", question := "How long have you had the headache?",
              qtype := "text", options := none }) }) ∧
    submitAnswerS1 specQuestionnaire specTree c2Store "s" c2ReqNone =
      Except.ok (dictSet c2Store "s"
        { c2State with
          answers := dictSet c2State.answers c2ReqNone.question_id
            (extract_answer_value c2ReqNone.payload) },
        { status := "completed", question := none }) :=
  ⟨(c2_exhaustion_transition specQuestionnaire specTree c2Store "s" c2Req c2State
      (dictSet c2State.answers c2Req.question_id (extract_answer_value c2Req.payload))
      (by decide) (by decide) rfl (by decide)).1
      c2HeadacheMatch c2HeadacheSymptom
      { key := "fq_duration", question := "How long have you had the headache?",
        qtype := "text", options := none }
      [{ key := "fq_severity", question := "How severe is it?",
         qtype := "single_choice", options := some ["mild", "severe"] }]
      (by decide) (by decide) (by decide),
   (c2_exhaustion_transition specQuestionnaire specTree c2Store "s" c2ReqNone c2State
      (dictSet c2State.answers c2ReqNone.question_id (extract_answer_value c2ReqNone.payload))
      (by decide) (by decide) rfl (by decide)).2 (by decide)⟩

/-! ## C3 — symptom detection -/

/-- When no keyword of the list hits, the keyword loop yields nothing. -/
theorem findKeyword_eq_none (cl : List Char) (kws : List String)
    (h : ∀ kw ∈ kws, kwHit cl kw = false) : findKeyword cl kws = none := by
  induction kws with
  | nil => rfl
  | cons k rest ih =>
    have hk := h k (List.mem_cons_self k rest)
    simp only [findKeyword, hk, if_false, Bool.false_eq_true]
    exact ih (fun kw hkw => h kw (List.mem_cons_of_mem k hkw))

/-- The keyword loop returns the first hit. -/
theorem findKeyword_first (cl : List Char) (kpre : List String) (kw : String)
    (kpost : List String)
    (hpre : ∀ k ∈ kpre, kwHit cl k = false) (hk : kwHit cl kw = true) :
    findKeyword cl (kpre ++ kw :: kpost) = some kw := by
  induction kpre with
  | nil => simp [findKeyword, hk]
  | cons k rest ih =>
    have h0 := hpre k (List.mem_cons_self k rest)
    simp only [List.cons_append, findKeyword, h0, Bool.false_eq_true, if_false]
    exact ih (fun k2 hk2 => hpre k2 (List.mem_cons_of_mem k hk2))

/-- Symptoms none of whose keywords hit are skipped by the symptom loop. -/
theorem detectAux_append_none (cl : List Char) (pre rest : List Symptom)
    (h : ∀ sym ∈ pre, ∀ kw ∈ sym.keywords, kwHit cl kw = false) :
    detectAux cl (pre ++ rest) = detectAux cl rest := by
  induction pre with
  | nil => rfl
  | cons sym pre2 ih =>
    have hnone := findKeyword_eq_none cl sym.keywords
      (h sym (List.mem_cons_self sym pre2))
    simp only [List.cons_append, detectAux, hnone]
    exact ih (fun s hs => h s (List.mem_cons_of_mem sym hs))

/-- C3: `detect_symptom` returns `None` on the empty input; it returns
`None` when no keyword of any symptom occurs in the trimmed lower-cased
input; it returns the match for the first keyword in symptom-then-keyword
catalog order that occurs as a substring of the trimmed lower-cased input
(with the symptom's default urgency, falling back to
"yellow_doctor_visit"); and on the spec's ordering example — symptom A with
keyword "chest pain" listed before symptom B with keyword "pain" — the
input "I have chest pain" matches A, not B. -/
theorem c3_detect_first_match :
    (∀ tree : DecisionTree, detect_symptom tree "" = none) ∧
    (∀ (tree : DecisionTree) (s : String),
      (∀ sym ∈ tree.symptoms, ∀ kw ∈ sym.keywords, kwHit (cleanComplaint s) kw = false) →
      detect_symptom tree s = none) ∧
    (∀ (tree : DecisionTree) (s : String) (pre post : List Symptom) (sym : Symptom)
      (kpre kpost : List String) (kw : String),
      tree.symptoms = pre ++ sym :: post →
      sym.keywords = kpre ++ kw :: kpost →
      (∀ sym2 ∈ pre, ∀ kw2 ∈ sym2.keywords, kwHit (cleanComplaint s) kw2 = false) →
      (∀ kw2 ∈ kpre, kwHit (cleanComplaint s) kw2 = false) →
      kwHit (cleanComplaint s) kw = true →
      s ≠ "" →
      detect_symptom tree s =
        some ⟨sym.symptom_id, sym.label, kw,
          sym.default_urgency.getD "yellow_doctor_visit"⟩) ∧
    detect_symptom specTreeAB "I have chest pain" =
      some ⟨"sym_a", "Symptom A", "chest pain", "red_emergency"⟩ := by
  refine ⟨?_, ?_, ?_, by decide⟩
  · intro tree
    rfl
  · intro tree s h
    by_cases hs : s = ""
    · simp [detect_symptom, hs]
    · simp only [detect_symptom, if_neg hs]
      have h2 := detectAux_append_none (cleanComplaint s) tree.symptoms [] h
      simpa using h2
  · intro tree s pre post sym kpre kpost kw htree hkeys hpre hkpre hkw hne
    simp only [detect_symptom, if_neg hne, htree]
    rw [detectAux_append_none (cleanComplaint s) pre (sym :: post) hpre]
    simp only [detectAux, hkeys,
      findKeyword_first (cleanComplaint s) kpre kw kpost hkpre hkw]

/-- C3 witness: the first-hit characterization applied on the modelled
tree — `chest_pain` precedes `headache`, the complaint "bad headache" hits
no chest-pain keyword, so the headache keyword in position one wins. -/
theorem c3_witness :
    detect_symptom specTree "bad headache" =
      some ⟨"headache", "Headache", "headache", "yellow_doctor_visit"⟩ := by
  have h := c3_detect_first_match.2.2.1 specTree "bad headache"
    [{ symptom_id := "chest_pain", label := "Chest Pain",
       keywords := ["chest pain"], default_urgency := some "red_emergency",
       followup_questions := some
         [{ key := "fq_cp_onset", question := "When did the pain start?",
            qtype := "text", options := none }] }]
    [] c2HeadacheSymptom [] [] "headache"
    (by decide) (by decide) (by decide) (by decide) (by decide) (by decide)
  simpa [c2HeadacheSymptom] using h

/-! ## C7 — start always creates -/

/-- C7 (amended): the start operation never resumes — for any existing
store it writes a brand-new session (phase questionnaire, no answers, no
symptom, index 0) under the fresh id and returns the rendered first catalog
question; at the DB layer, `create_session` likewise inserts a fresh active
questionnaire-phase row with no symptom, first expiring the user's
previously active sessions so that the new row is the only active one. -/
theorem c7_start_always_creates :
    (∀ (q : Questionnaire) (store : Store) (sid : String) (fq : CatalogQuestion),
      q.questions.get? 0 = some fq →
      startAssessmentS1 q store sid =
        Except.ok (dictSet store sid (freshSessionState q), build_question_response fq)) ∧
    (∀ (tbl : List DbSession) (uid sid : String),
      (dbCreateSession tbl uid sid).2 =
        { session_id := sid, user_id := uid, status := "active",
          phase := "questionnaire", detected_symptom := none } ∧
      ∀ r ∈ (dbCreateSession tbl uid sid).1,
        r.user_id = uid → r.status = "active" → r = (dbCreateSession tbl uid sid).2) := by
  constructor
  · intro q store sid fq h
    simp only [startAssessmentS1, h]
  · intro tbl uid sid
    refine ⟨rfl, ?_⟩
    intro r hr hu hs
    simp only [dbCreateSession] at hr ⊢
    rcases List.mem_append.mp hr with hmem | hmem
    · rcases List.mem_map.mp hmem with ⟨r0, hr0, heq⟩
      by_cases hc : r0.user_id = uid ∧ r0.status = "active"
      · rw [if_pos hc] at heq
        rw [← heq] at hs
        have h2 : ("expired" : String) = "active" := hs
        exact absurd h2 (by decide)
      · rw [if_neg hc] at heq
        subst heq
        exact absurd ⟨hu, hs⟩ hc
    · simpa using List.mem_singleton.mp hmem

/-- An existing table row: an active session of the same user. -/
def c7DbRow : DbSession :=
  { session_id := "db_old", user_id := "u1", status := "active",
    phase := "followup", detected_symptom := some "headache" }

/-- C7 witness: the start handler applied to the counterexample store (an
active session present) still writes the fresh session, and `create_session`
applied to a table holding an active row of the same user returns the fresh
active questionnaire row. -/
theorem c7_witness :
    startAssessmentS1 specQuestionnaire c7Store "new" =
      Except.ok (dictSet c7Store "new" (freshSessionState specQuestionnaire),
        build_question_response
          { id := "q_gender", text := "What is your gender?", qtype := "single_choice",
            options := ["male", "female"], is_compulsory := true }) ∧
    (dbCreateSession [c7DbRow] "u1" "db_new").2 =
      { session_id := "db_new", user_id := "u1", status := "active",
        phase := "questionnaire", detected_symptom := none } :=
  ⟨c7_start_always_creates.1 specQuestionnaire c7Store "new"
      { id := "q_gender", text := "What is your gender?", qtype := "single_choice",
        options := ["male", "female"], is_compulsory := true } (by decide),
   (c7_start_always_creates.2 [c7DbRow] "u1" "db_new").1⟩

end Backend
